import Mathlib

/-!
Shallow embedding of the hive "larve" daemon (src/larve.py): the Queen
election state machine, the drone registry, the liveness-monitor probe
loop, and the HTTP handlers `/request_vote`, `/append_entries`,
`/submit_task`, `/register`, `/do_task`.

Python integers are modelled as `Int` (terms, timestamps) or `Nat`
(counters); the `drones` dict is an association list with Python-dict
insert-or-overwrite semantics; a request's JSON body is an `Option` of
the fields the handler reads (`none` = absent or falsy body, inner
`Option`s = presence of the individual keys); `flask.abort`, the 300
response and an uncaught Python exception are explicit constructors.
-/

namespace Hive

/-- Mode enum of larve.py (line 35). -/
inductive Mode where
  | DRONE
  | QUEEN
deriving DecidableEq, Repr

/-- RaftState enum of larve.py (line 42). -/
inductive RaftState where
  | FOLLOWER
  | CANDIDATE
  | LEADER
deriving DecidableEq, Repr

/-- The module-level mutable state of a larve node: mode, raft state,
term, last-heartbeat timestamp, election timeout and the drones dict. -/
structure NodeState where
  larve_mode : Mode
  raft_state : RaftState
  raft_term : Int
  last_heartbeat : Int
  raft_election_timeout : Int
  drones : List (String × String)
deriving DecidableEq, Repr

/-- An HTTP response produced by a handler: `ok` is the 200
`jsonify` result, `abort c` is `flask.abort(c)`, `reject300` is the
explicit `Response(..., status=300)` of `request_vote`. -/
inductive HResp where
  | ok
  | abort (code : Nat)
  | reject300
deriving DecidableEq, Repr

/-- The HTTP status code carried by a response. -/
def HResp.statusCode : HResp → Nat
  | .ok => 200
  | .abort c => c
  | .reject300 => 300

/-- Outcome of a handler that may raise an uncaught Python exception
(which Flask renders as a 500, never as the handler's own response). -/
inductive HOutcome where
  | resp (r : HResp)
  | exn (name : String)
deriving DecidableEq, Repr

/-- JSON body of `/request_vote`: `none` = missing/falsy body, else the
optional `candidate` and `term` fields. -/
structure VoteBody where
  candidate : Option String
  term : Option Int
deriving DecidableEq, Repr

/-- JSON body of `/append_entries`: optional `leader`, `term`,
`entries` fields. -/
structure AppendBody where
  leader : Option String
  term : Option Int
  entries : Option (List String)
deriving DecidableEq, Repr

/-- `/request_vote` handler (larve.py lines 323-348).  It first sets
`last_heartbeat = get_time_millis()` (before any validation), aborts 400
on a missing body or missing `candidate`/`term` key, then grants (200,
adopting the term) iff `term > raft_term` and otherwise answers with the
300 rejection response. -/
def request_vote (st : NodeState) (now : Int) (body : Option VoteBody) :
    HResp × NodeState :=
  let st := { st with last_heartbeat := now }
  match body with
  | none => (.abort 400, st)
  | some b =>
    match b.candidate with
    | none => (.abort 400, st)
    | some _ =>
      match b.term with
      | none => (.abort 400, st)
      | some term =>
        if st.raft_term < term then
          (.ok, { st with raft_term := term })
        else
          (.reject300, st)

/-- `/append_entries` handler (larve.py lines 243-277).  Aborts 400 when
the body or any of `leader`/`term`/`entries` is missing.  If the node is
a CANDIDATE: a term `≥ raft_term` adopts the term, records the
heartbeat and demotes to FOLLOWER; a smaller term aborts 400.  In any
other raft state it only records the heartbeat and answers OK. -/
def append_entries (st : NodeState) (now : Int) (body : Option AppendBody) :
    HResp × NodeState :=
  match body with
  | none => (.abort 400, st)
  | some b =>
    match b.leader with
    | none => (.abort 400, st)
    | some _ =>
      match b.term with
      | none => (.abort 400, st)
      | some entry_term =>
        match b.entries with
        | none => (.abort 400, st)
        | some _ =>
          if st.raft_state = RaftState.CANDIDATE then
            if st.raft_term ≤ entry_term then
              (.ok, { st with last_heartbeat := now,
                              raft_term := entry_term,
                              raft_state := RaftState.FOLLOWER })
            else
              (.abort 400, st)
          else
            (.ok, { st with last_heartbeat := now })

/-- One pass of the CANDIDATE branch of the `raft` driver loop
(larve.py lines 139-166).  `peerVotes` is the list of 0/1 results of
`send_vote_request` for each peer queen; `stateAfterRound` is the value
of `raft_state` read after the vote round (a concurrent
`append_entries` may have set it to FOLLOWER; in a quiet run it is still
CANDIDATE).  The step re-randomizes the timeout (`newTimeout`),
increments the term, adds the self vote, records the heartbeat,
computes `votes_needed = int(math.ceil((len(queens)+1)/2.0))`, zeroes
the tally when demoted mid-round and becomes LEADER iff
`num_votes > votes_needed`. -/
def raft_candidate_step (st : NodeState) (queens : List String)
    (peerVotes : List Nat) (stateAfterRound : RaftState)
    (now newTimeout : Int) : NodeState :=
  let term := st.raft_term + 1
  let num_votes := peerVotes.sum + 1
  let votes_needed : Nat := (queens.length + 1 + 1) / 2
  let num_votes := if stateAfterRound = RaftState.FOLLOWER then 0 else num_votes
  let next := if votes_needed < num_votes then RaftState.LEADER
              else RaftState.FOLLOWER
  { st with raft_term := term,
            last_heartbeat := now,
            raft_election_timeout := newTimeout,
            raft_state := next }

/-- `max_retry` of `queen_heartbeat` (larve.py line 87). -/
def max_retry : Nat := 5

/-- Whether `send_heartbeat` (larve.py lines 190-195) raises into its
caller.  Its body wraps `requests.get` in its own
`try/except Exception` that logs and returns normally, so no exception
ever escapes, whatever the transport outcome `reachable` of the GET
was. -/
def send_heartbeat_raises (_reachable : Bool) : Bool :=
  false

/-- The per-drone retry loop of `queen_heartbeat` (larve.py lines
94-109): `success = False; count = 1; while not success and count <
max_retry: try: send_heartbeat(k); success = True; except: count += 1;
sleep(.5)`.  `raises i` tells whether the loop body raises on its i-th
iteration (the only way into the `except` branch); the result is the
final `count` paired with the number of iterations run.  `fuel` bounds
the recursion; `count` strictly increases on every raising iteration,
so `max_retry` fuel is enough from `count = 1`. -/
def probeLoop (raises : Nat → Bool) : Nat → Nat → Nat → Nat × Nat
  | 0, count, attempts => (count, attempts)
  | fuel + 1, count, attempts =>
    if count < max_retry then
      if raises attempts then probeLoop raises fuel (count + 1) (attempts + 1)
      else (count, attempts + 1)
    else (count, attempts)

/-- Run the retry loop for one drone exactly as `queen_heartbeat`
enters it: `count = 1`, no iterations yet, and the body raising
exactly when `send_heartbeat` raises — which it never does
(larve.py lines 190-195), whatever the per-attempt reachability
`reachable` of the drone. -/
def probeDrone (reachable : Nat → Bool) : Nat × Nat :=
  probeLoop (fun i => send_heartbeat_raises (reachable i)) max_retry 1 0

/-- A drone is marked for removal when the loop exits with
`count >= max_retry` (larve.py line 110). -/
def droneMarked (reachable : Nat → Bool) : Bool :=
  max_retry ≤ (probeDrone reachable).1

/-- One cycle of the `queen_heartbeat` loop body (larve.py lines
90-118) on the registry: when the node is LEADER, every drone goes
through the retry loop, the marked drones are collected in `to_remove`
and popped from the dict; otherwise the registry is untouched.
`outcomes k i` is the reachability of the drone at address `k` on its
i-th probe. -/
def queen_heartbeat_cycle (st : NodeState)
    (outcomes : String → Nat → Bool) : List (String × String) :=
  if st.raft_state = RaftState.LEADER then
    let to_remove := (st.drones.filter fun kv => droneMarked (outcomes kv.1)).map Prod.fst
    st.drones.filter fun kv => !(to_remove.contains kv.1)
  else
    st.drones

/-- Python-dict assignment `d[k] = v` on an association list: overwrite
the existing entry for `k` in place, or append a new one. -/
def dictInsert (k v : String) : List (String × String) → List (String × String)
  | [] => [(k, v)]
  | (k', v') :: rest =>
    if k' = k then (k, v) :: rest else (k', v') :: dictInsert k v rest

/-- JSON body of `/register` and of `/submit_task` | `/do_task`: a
single optional string field (`address` resp. `text`); the outer
`Option` is a missing or falsy body. -/
def OneField := Option (Option String)

/-- `/register` handler (larve.py lines 379-397).  Aborts 400 on a
missing body or missing `address` key, or in DRONE mode; otherwise
stores `drones[address] = "drone-" + sha1hex(address)` and answers OK.
`hashlib.sha1(...).hexdigest()` is external to the repository and is
passed in as the function `sha1hex`. -/
def register (sha1hex : String → String) (st : NodeState)
    (body : Option (Option String)) : HResp × NodeState :=
  match body with
  | none => (.abort 400, st)
  | some addr? =>
    match addr? with
    | none => (.abort 400, st)
    | some address =>
      if st.larve_mode = Mode.DRONE then
        (.abort 400, st)
      else
        let name := sha1hex address
        (.ok, { st with drones := dictInsert address ("drone-" ++ name) st.drones })

/-- Result of the `/submit_task` handler: the HTTP outcome (a response
or an uncaught exception) and whether `drones_lock` is still held when
the handler ends. -/
structure SubmitResult where
  outcome : HOutcome
  lockHeld : Bool
deriving DecidableEq, Repr

/-- `/submit_task` handler (larve.py lines 352-375).  Aborts 400 on a
missing body or missing `text` key, or in DRONE mode.  Otherwise it
acquires `drones_lock` and calls `random.choice(list(drones.items()))`:
on an empty dict this raises IndexError with the lock held.  `pick`
selects which entry `random.choice` returns.  The forward
`requests.post(...)` is not wrapped in try/except; `sendRaises` tells
whether it raises, and if it does the exception propagates with the
lock held.  Only after a completed forward is the lock released and
OK returned. -/
def submit_task (st : NodeState) (body : Option (Option String))
    (pick : Nat) (sendRaises : Bool) : SubmitResult × NodeState :=
  match body with
  | none => (⟨.resp (.abort 400), false⟩, st)
  | some text? =>
    match text? with
    | none => (⟨.resp (.abort 400), false⟩, st)
    | some _task =>
      if st.larve_mode = Mode.DRONE then
        (⟨.resp (.abort 400), false⟩, st)
      else
        match st.drones with
        | [] => (⟨.exn "IndexError", true⟩, st)
        | d :: ds =>
          if sendRaises then
            (⟨.exn "requests.exceptions.ConnectionError", true⟩, st)
          else
            let _chosen := (d :: ds).getD (pick % (d :: ds).length) d
            (⟨.resp .ok, false⟩, st)

/-- `/do_task` handler (larve.py lines 402-413).  Aborts 400 on a
missing body or missing `text` key, or in QUEEN mode; then
`if task:`-tests the text, so an empty string also aborts 400; a
non-empty task is acknowledged OK. -/
def do_task (st : NodeState) (body : Option (Option String)) : HResp :=
  match body with
  | none => .abort 400
  | some text? =>
    match text? with
    | none => .abort 400
    | some task =>
      if st.larve_mode = Mode.QUEEN then
        .abort 400
      else
        if task = "" then .abort 400 else .ok

/-! Sample node states used to instantiate the theorems. -/

/-- A freshly started Queen at term 3 with an empty registry. -/
def sampleQueen : NodeState :=
  { larve_mode := Mode.QUEEN, raft_state := RaftState.FOLLOWER,
    raft_term := 3, last_heartbeat := 0, raft_election_timeout := 200,
    drones := [] }

/-- A Queen that has one registered drone. -/
def queenWithDrone : NodeState :=
  { sampleQueen with drones := [("10.0.0.1:8081", "drone-abc")] }

/-- A Queen in LEADER state at term 0. -/
def leaderQueen : NodeState :=
  { sampleQueen with raft_state := RaftState.LEADER, raft_term := 0 }

/-- C1: the claim says a Queen started with an empty peer list becomes
LEADER immediately after its first election timeout.  The code computes
`votes_needed = ceil((0+1)/2) = 1`, tallies `num_votes = 1` (the self
vote) and requires `num_votes > votes_needed`, i.e. `1 > 1`, which is
false: the candidate step of a single-Queen cluster always transitions
back to FOLLOWER and never to LEADER. -/
theorem C1_single_queen_never_leader (st : NodeState) (now newTimeout : Int) :
    (raft_candidate_step st [] [] RaftState.CANDIDATE now newTimeout).raft_state
        = RaftState.FOLLOWER ∧
    (raft_candidate_step st [] [] RaftState.CANDIDATE now newTimeout).raft_state
        ≠ RaftState.LEADER := by
  constructor <;> simp [raft_candidate_step]

/-- C2: the claim says any inbound message with a strictly higher term
makes the node adopt the term and demote to Follower regardless of
role.  At a LEADER with `raft_term = 0`: a RequestVote with term 5 is
granted and the term adopted, but the node stays LEADER; an
AppendEntries with term 5 leaves both the role and the term unchanged
(the demotion branch only runs for CANDIDATEs). -/
theorem C2_leader_not_demoted_on_higher_term :
    (request_vote leaderQueen 100 (some ⟨some "x", some 5⟩)).1 = HResp.ok ∧
    (request_vote leaderQueen 100 (some ⟨some "x", some 5⟩)).2.raft_term = 5 ∧
    (request_vote leaderQueen 100 (some ⟨some "x", some 5⟩)).2.raft_state
        = RaftState.LEADER ∧
    (append_entries leaderQueen 100 (some ⟨some "l", some 5, some []⟩)).2.raft_state
        = RaftState.LEADER ∧
    (append_entries leaderQueen 100 (some ⟨some "l", some 5, some []⟩)).2.raft_term
        = 0 := by
  decide

/-- C3: the claim says every registered drone is probed up to 5 times
and evicted after 5 consecutive failures.  `send_heartbeat` catches
every exception internally (larve.py lines 190-195), so the `except`
branch of `queen_heartbeat`'s retry loop is unreachable: whatever the
drone's reachability, the loop body never raises, `success` is set on
the first iteration, `count` stays 1, the loop runs exactly once, no
drone is ever marked (`count >= max_retry` is never reached) and the
eviction pass never removes anything — the registry comes out of every
cycle unchanged. -/
theorem C3_heartbeat_never_evicts (st : NodeState)
    (outcomes : String → Nat → Bool) :
    (∀ reachable : Nat → Bool,
        probeDrone reachable = (1, 1) ∧ droneMarked reachable = false) ∧
    queen_heartbeat_cycle st outcomes = st.drones := by
  refine ⟨fun reachable => ⟨rfl, rfl⟩, ?_⟩
  have hmark : ∀ k, droneMarked (outcomes k) = false := fun _ => rfl
  unfold queen_heartbeat_cycle
  split
  · simp [hmark, List.contains]
  · rfl

/-- C4: a Queen receiving a well-formed RequestVote grants (200 OK) iff
the request term is strictly greater than `raft_term`, adopting the
term on grant; a term less than or equal to `raft_term` gets the 300
rejection and leaves the term unchanged. -/
theorem C4_request_vote_grant_iff (st : NodeState) (now : Int)
    (c : String) (t : Int) :
    ((request_vote st now (some ⟨some c, some t⟩)).1 = HResp.ok ↔
        st.raft_term < t) ∧
    (st.raft_term < t →
        (request_vote st now (some ⟨some c, some t⟩)).2.raft_term = t) ∧
    (t ≤ st.raft_term →
        (request_vote st now (some ⟨some c, some t⟩)).1.statusCode = 300 ∧
        (request_vote st now (some ⟨some c, some t⟩)).2.raft_term
          = st.raft_term) := by
  rcases lt_or_ge st.raft_term t with h | h
  · refine ⟨by simp [request_vote, h], fun _ => by simp [request_vote, h],
      fun hle => absurd h (not_lt.mpr hle)⟩
  · have h' : ¬ st.raft_term < t := not_lt.mpr h
    exact ⟨by simp [request_vote, h'], fun hlt => absurd hlt h',
      fun _ => by simp [request_vote, h', HResp.statusCode]⟩

/-- C4 witness: at term 3, a RequestVote with term 5 is granted. -/
theorem C4_witness :
    (request_vote sampleQueen 100 (some ⟨some "c", some 5⟩)).1 = HResp.ok :=
  (C4_request_vote_grant_iff sampleQueen 100 "c" 5).1.mpr (by decide)

/-- C5 counterexample: on a Queen with one registered drone and a
well-formed body, a forward `requests.post` that raises makes
`submit_task` end in an uncaught exception (Flask 500) with
`drones_lock` still held — the handler does not return OK. -/
theorem C5_counterexample_forward_error_surfaces :
    (submit_task queenWithDrone (some (some "hello")) 0 true).1
        = ⟨HOutcome.exn "requests.exceptions.ConnectionError", true⟩ ∧
    (submit_task queenWithDrone (some (some "hello")) 0 true).1.outcome
        ≠ HOutcome.resp HResp.ok := by
  decide

/-- C5 amended: with a well-formed body and non-empty registry,
`submit_task` returns OK iff the forward to the drone does not raise;
when the forward raises, the exception propagates uncaught (the client
sees Flask's 500, not OK) and the registry lock is left held. -/
theorem C5_amended_ok_iff_forward_succeeds (st : NodeState) (text : String)
    (pick : Nat) (hq : st.larve_mode = Mode.QUEEN) (hne : st.drones ≠ []) :
    (submit_task st (some (some text)) pick false).1
        = ⟨HOutcome.resp HResp.ok, false⟩ ∧
    (submit_task st (some (some text)) pick true).1
        = ⟨HOutcome.exn "requests.exceptions.ConnectionError", true⟩ := by
  obtain ⟨d, ds, hd⟩ := List.exists_cons_of_ne_nil hne
  simp [submit_task, hq, hd]

/-- C5 witness: the successful-forward half at a concrete Queen. -/
theorem C5_amended_witness :
    (submit_task queenWithDrone (some (some "hello")) 0 false).1
        = ⟨HOutcome.resp HResp.ok, false⟩ :=
  (C5_amended_ok_iff_forward_succeeds queenWithDrone "hello" 0 rfl
    (by decide)).1

/-- C6 counterexample: a malformed `/request_vote` request (no JSON
body) is answered 400, but the handler has already overwritten
`last_heartbeat` (0 before, 100 after), so node state does change. -/
theorem C6_counterexample_request_vote_mutates_on_malformed :
    (request_vote sampleQueen 100 none).1 = HResp.abort 400 ∧
    (request_vote sampleQueen 100 none).2.last_heartbeat = 100 ∧
    sampleQueen.last_heartbeat = 0 := by
  decide

/-- A `/request_vote` body failing the handler's validation. -/
def vbMalformed : Option VoteBody → Bool
  | none => true
  | some b => b.candidate.isNone || b.term.isNone

/-- An `/append_entries` body failing the handler's validation. -/
def abMalformed : Option AppendBody → Bool
  | none => true
  | some b => b.leader.isNone || b.term.isNone || b.entries.isNone

/-- A one-field (`address` / `text`) body failing validation. -/
def ofMalformed : Option (Option String) → Bool
  | none => true
  | some f => f.isNone

/-- C6 amended: a malformed request is answered 400 with no state
change on `/append_entries`, `/register`, `/submit_task` and
`/do_task`; `/request_vote` also answers 400 but has already set
`last_heartbeat` to the current time before validating, leaving every
other field unchanged. -/
theorem C6_amended_malformed_400 (st : NodeState) (now : Int)
    (sha1hex : String → String) (pick : Nat) (sr : Bool) :
    (∀ b, abMalformed b = true →
        append_entries st now b = (HResp.abort 400, st)) ∧
    (∀ b, vbMalformed b = true →
        request_vote st now b
          = (HResp.abort 400, { st with last_heartbeat := now })) ∧
    (∀ f, ofMalformed f = true →
        register sha1hex st f = (HResp.abort 400, st) ∧
        submit_task st f pick sr = (⟨HOutcome.resp (HResp.abort 400), false⟩, st) ∧
        do_task st f = HResp.abort 400) := by
  refine ⟨?_, ?_, ?_⟩ <;> intro b hb
  · rcases b with _ | ⟨l, t, e⟩
    · rfl
    · rcases l with _ | l <;> rcases t with _ | t <;> rcases e with _ | e <;>
        simp_all [append_entries, abMalformed]
  · rcases b with _ | ⟨c, t⟩
    · rfl
    · rcases c with _ | c <;> rcases t with _ | t <;>
        simp_all [request_vote, vbMalformed]
  · rcases b with _ | (_ | f)
    · exact ⟨rfl, rfl, rfl⟩
    · exact ⟨rfl, rfl, rfl⟩
    · simp [ofMalformed] at hb

/-- C6 witness: the `/append_entries` half at a concrete input. -/
theorem C6_amended_witness :
    append_entries sampleQueen 100 none = (HResp.abort 400, sampleQueen) :=
  (C6_amended_malformed_400 sampleQueen 100 id 0 false).1 none rfl

/-- C7 counterexample: a `/submit_task` body whose `text` field is the
empty string passes the handler's validation (a dict containing the
key is truthy) and the task is dispatched with a 200 OK, not a 400. -/
theorem C7_counterexample_empty_text_accepted :
    (submit_task queenWithDrone (some (some "")) 0 false).1
        = ⟨HOutcome.resp HResp.ok, false⟩ := by
  decide

/-- C7 amended: a missing `text` field gets 400 from both
`/submit_task` and `/do_task`; an empty-string `text` gets 400 from
`/do_task` (its `if task:` truthiness test), but `/submit_task`
accepts it and dispatches the empty task with 200 OK. -/
theorem C7_amended_empty_text (st : NodeState) (pick : Nat) (sr : Bool)
    (hq : st.larve_mode = Mode.QUEEN) (hne : st.drones ≠ []) :
    ((submit_task st (some none) pick sr).1
        = ⟨HOutcome.resp (HResp.abort 400), false⟩) ∧
    ((submit_task st none pick sr).1
        = ⟨HOutcome.resp (HResp.abort 400), false⟩) ∧
    (∀ st2 : NodeState, do_task st2 (some none) = HResp.abort 400 ∧
        do_task st2 none = HResp.abort 400 ∧
        do_task st2 (some (some "")) = HResp.abort 400) ∧
    ((submit_task st (some (some "")) pick false).1
        = ⟨HOutcome.resp HResp.ok, false⟩) := by
  obtain ⟨d, ds, hd⟩ := List.exists_cons_of_ne_nil hne
  refine ⟨rfl, rfl, ?_, by simp [submit_task, hq, hd]⟩
  intro st2
  refine ⟨rfl, rfl, ?_⟩
  by_cases hm : st2.larve_mode = Mode.QUEEN <;> simp [do_task, hm]

/-- C7 witness: the missing-text half at a concrete Queen. -/
theorem C7_amended_witness :
    (submit_task queenWithDrone (some none) 0 false).1
        = ⟨HOutcome.resp (HResp.abort 400), false⟩ :=
  (C7_amended_empty_text queenWithDrone 0 false rfl (by decide)).1

/-! Helper lemmas about Python-dict insertion on association lists. -/

/-- Keys after a dict assignment are the old keys plus possibly `k`. -/
lemma mem_keys_dictInsert (a k v : String) (l : List (String × String)) :
    a ∈ (dictInsert k v l).map Prod.fst ↔ a = k ∨ a ∈ l.map Prod.fst := by
  induction l with
  | nil => simp [dictInsert]
  | cons hd tl ih =>
    by_cases hkk : hd.1 = k
    · simp [dictInsert, hkk]
    · simp [dictInsert, hkk, ih]
      tauto

/-- Dict assignment preserves key uniqueness. -/
lemma dictInsert_keys_nodup (k v : String) (l : List (String × String))
    (h : (l.map Prod.fst).Nodup) :
    ((dictInsert k v l).map Prod.fst).Nodup := by
  induction l with
  | nil => simp [dictInsert]
  | cons hd tl ih =>
    simp only [List.map_cons, List.nodup_cons] at h
    by_cases hkk : hd.1 = k
    · simp only [dictInsert, if_pos hkk, List.map_cons, List.nodup_cons]
      exact ⟨hkk ▸ h.1, h.2⟩
    · simp only [dictInsert, if_neg hkk, List.map_cons, List.nodup_cons]
      refine ⟨fun hmem => ?_, ih h.2⟩
      rcases (mem_keys_dictInsert hd.1 k v tl).mp hmem with heq | hmem'
      · exact hkk heq
      · exact h.1 hmem'

/-- A key absent from an association list matches no entry. -/
lemma filter_keys_eq_nil (k : String) (l : List (String × String))
    (h : k ∉ l.map Prod.fst) :
    l.filter (fun kv => kv.1 == k) = [] := by
  induction l with
  | nil => rfl
  | cons hd tl ih =>
    simp only [List.map_cons, List.mem_cons, not_or] at h
    have hne : (hd.1 == k) = false := by
      simp only [beq_eq_false_iff_ne, ne_eq]
      exact fun he => h.1 (he ▸ rfl)
    simp [List.filter, hne, ih h.2]

/-- After a dict assignment `d[k] = v` on a list with unique keys, the
entries for `k` are exactly `[(k, v)]`. -/
lemma dictInsert_filter (k v : String) (l : List (String × String))
    (h : (l.map Prod.fst).Nodup) :
    (dictInsert k v l).filter (fun kv => kv.1 == k) = [(k, v)] := by
  induction l with
  | nil => simp [dictInsert]
  | cons hd tl ih =>
    simp only [List.map_cons, List.nodup_cons] at h
    by_cases hkk : hd.1 = k
    · have htl : k ∉ tl.map Prod.fst := hkk ▸ h.1
      simp [dictInsert, hkk, List.filter, filter_keys_eq_nil k tl htl]
    · have hne : (hd.1 == k) = false := by
        simp only [beq_eq_false_iff_ne, ne_eq]
        exact hkk
      simp [dictInsert, hkk, List.filter, hne, ih h.2]

/-- `n` successive calls of the `/register` handler with the same
`address` body. -/
def registerN (sha1hex : String → String) (st : NodeState) (addr : String) :
    Nat → NodeState
  | 0 => st
  | n + 1 => (register sha1hex (registerN sha1hex st addr n) (some (some addr))).2

/-- Registration on a Queen never changes the mode and keeps registry
keys unique. -/
lemma registerN_invariant (sha1hex : String → String) (st : NodeState)
    (addr : String) (n : Nat) (hq : st.larve_mode = Mode.QUEEN)
    (hnd : (st.drones.map Prod.fst).Nodup) :
    (registerN sha1hex st addr n).larve_mode = Mode.QUEEN ∧
    (((registerN sha1hex st addr n).drones.map Prod.fst)).Nodup := by
  induction n with
  | zero => exact ⟨hq, hnd⟩
  | succ n ih =>
    have hmode : (registerN sha1hex st addr n).larve_mode ≠ Mode.DRONE := by
      rw [ih.1]
      exact fun h => Mode.noConfusion h
    simp only [registerN, register, if_neg hmode]
    exact ⟨ih.1, dictInsert_keys_nodup _ _ _ ih.2⟩

/-- C8: on a Queen, a well-formed registration always answers OK and
stores `drones[address] = "drone-" + sha1hex(address)`; registering the
same address one or more times leaves the registry with exactly one
entry for that address carrying that same derived name. -/
theorem C8_register_name_and_idempotent (sha1hex : String → String)
    (st : NodeState) (addr : String) (n : Nat)
    (hq : st.larve_mode = Mode.QUEEN)
    (hnd : (st.drones.map Prod.fst).Nodup) :
    (∀ st2 : NodeState, st2.larve_mode = Mode.QUEEN →
        register sha1hex st2 (some (some addr))
          = (HResp.ok,
             { st2 with drones :=
                dictInsert addr ("drone-" ++ sha1hex addr) st2.drones })) ∧
    ((registerN sha1hex st addr (n + 1)).drones.filter
        (fun kv => kv.1 == addr))
      = [(addr, "drone-" ++ sha1hex addr)] := by
  constructor
  · intro st2 hq2
    have hmode : st2.larve_mode ≠ Mode.DRONE := by
      rw [hq2]
      exact fun h => Mode.noConfusion h
    simp [register, if_neg hmode]
  · have hinv := registerN_invariant sha1hex st addr n hq hnd
    have hmode : (registerN sha1hex st addr n).larve_mode ≠ Mode.DRONE := by
      rw [hinv.1]
      exact fun h => Mode.noConfusion h
    simp only [registerN, register, if_neg hmode]
    exact dictInsert_filter _ _ _ hinv.2

/-- C8 witness: two registrations of the same address on a fresh Queen
leave exactly one entry with the derived name. -/
theorem C8_witness :
    ((registerN (fun _ => "f00") sampleQueen "10.0.0.2:9000" 2).drones.filter
        (fun kv => kv.1 == "10.0.0.2:9000"))
      = [("10.0.0.2:9000", "drone-f00")] :=
  (C8_register_name_and_idempotent (fun _ => "f00") sampleQueen
    "10.0.0.2:9000" 1 rfl (by decide)).2

/-- C9: `raft_term` is non-decreasing under every operation that
touches it: the Candidate-entry increment of the election driver, the
term adoption in `/append_entries`, and the term adoption in
`/request_vote`. -/
theorem C9_term_monotone (st : NodeState) (queens : List String)
    (peerVotes : List Nat) (sAfter : RaftState)
    (now newTimeout now2 now3 : Int)
    (ab : Option AppendBody) (vb : Option VoteBody) :
    st.raft_term ≤
      (raft_candidate_step st queens peerVotes sAfter now newTimeout).raft_term ∧
    st.raft_term ≤ (append_entries st now2 ab).2.raft_term ∧
    st.raft_term ≤ (request_vote st now3 vb).2.raft_term := by
  refine ⟨?_, ?_, ?_⟩
  · simp [raft_candidate_step]
  · rcases ab with _ | ⟨l, t, e⟩
    · simp [append_entries]
    · rcases l with _ | l <;> rcases t with _ | t <;> rcases e with _ | e <;>
        simp [append_entries] <;> split_ifs with h1 h2 <;> simp [*]
  · rcases vb with _ | ⟨c, t⟩
    · simp [request_vote]
    · rcases c with _ | c <;> rcases t with _ | t <;>
        simp [request_vote] <;> split_ifs with h1 <;> simp [*, le_of_lt]

/-- C10: a well-formed `/submit_task` on a Queen whose registry is
empty makes `random.choice` raise IndexError after `drones_lock` was
acquired and before it is released: the handler ends in an uncaught
exception (a 500 for the client, not a 400) with the lock still held,
and the node state is unchanged. -/
theorem C10_empty_registry_exception_lock_held (st : NodeState)
    (text : String) (pick : Nat) (sr : Bool)
    (hq : st.larve_mode = Mode.QUEEN) (he : st.drones = []) :
    submit_task st (some (some text)) pick sr
      = (⟨HOutcome.exn "IndexError", true⟩, st) := by
  simp [submit_task, hq, he]

/-- C10 witness: the fresh Queen with an empty registry. -/
theorem C10_witness :
    submit_task sampleQueen (some (some "hello")) 0 false
      = (⟨HOutcome.exn "IndexError", true⟩, sampleQueen) :=
  C10_empty_registry_exception_lock_held sampleQueen "hello" 0 false rfl rfl

end Hive
